import Mathlib

/-!
Shallow embedding of `src/requests.c` (librequests, a libcurl wrapper) and
proofs about the claims of its specification.

Bytes are modelled as `Nat` (a zero byte is `0`); C strings are `List Nat`
values holding the bytes before the terminator.  `size_t` arithmetic never
comes near `2^64` on the modelled inputs, so `Nat` is used directly.
Allocation is modelled by boolean oracles where a claim needs the failure
path; the `size_t` return value of the curl write callbacks is modelled as
`Option Nat`, with `none` standing for the error return `(size_t)-1`.
-/

namespace LibRequests

/-! ## Status verdict (`req->code`, `req->ok`, `check_ok`) -/

/-- The verdict-relevant fields of `req_t`: `code` is the C `long` status
code (signed, hence `Int`), `ok` the tri-state success flag
(`-1` uninitialized, `0` not ok, `1` ok). -/
structure Verdict where
  code : Int
  ok : Int
  deriving Repr, DecidableEq

/-- `check_ok` (requests.c lines 376-382):
`if (req->code >= 400 || req->code == 0) req->ok = 0; else req->ok = 1;` -/
def check_ok (r : Verdict) : Verdict :=
  if 400 ≤ r.code ∨ r.code = 0 then { r with ok := 0 } else { r with ok := 1 }

/-- Epilogue of `requests_get` (lines 164-174): `curl_easy_perform` returned
the CURLcode `rc` (0 is `CURLE_OK`); on failure `rc` is returned before
`req->code` / `check_ok` are touched, otherwise the retrieved `status`
is stored and the verdict recomputed. -/
def requests_get_result (rc : Nat) (status : Int) (r : Verdict) : Nat × Verdict :=
  if rc ≠ 0 then (rc, r)
  else (rc, check_ok { r with code := status })

/-- Epilogue of `requests_pt` (lines 318-324), identical shape to the one of
`requests_get`. -/
def requests_pt_result (rc : Nat) (status : Int) (r : Verdict) : Nat × Verdict :=
  if rc ≠ 0 then (rc, r)
  else (rc, check_ok { r with code := status })

/-! ## URL encoder (`requests_url_encode`, lines 190-229) -/

/-- The pair-assembly loop of `requests_url_encode` for every iteration after
the first: each (key, value) pair contributes `"&key=value"`. -/
def encode_rest : List String → String
  | k :: v :: rest => "&" ++ k ++ "=" ++ v ++ encode_rest rest
  | _ => ""

/-- The plaintext assembled into `encoded` by the loop of
`requests_url_encode`: the first pair as `"key=value"`, each further pair
as `"&key=value"` (the per-term `snprintf` sizes are exact, so each term
is written in full). -/
def encode_plaintext : List String → String
  | k :: v :: rest => k ++ "=" ++ v ++ encode_rest rest
  | _ => ""

/-- Size of the VLA `char encoded[total_size]` in `requests_url_encode`
(lines 200-209): the sum of the lengths of the input strings only. -/
def encoded_buf_size (data : List String) : Nat :=
  (data.map String.length).sum

/-- Bytes the loop actually deposits into `encoded`: the assembled plaintext
plus the terminator `strncat` writes after it. -/
def encoded_bytes_written (data : List String) : Nat :=
  (encode_plaintext data).length + 1

/-- The outcome of a `requests_url_encode` call: either the defined NULL
return of the odd-count guard, or an even-count path, none of which
defines a return value (a zero-length VLA for the empty input,
out-of-bounds writes otherwise). -/
inductive EncodeOutcome where
  | null : EncodeOutcome
  | undefinedBehavior : EncodeOutcome
  deriving Repr, DecidableEq

/-- `requests_url_encode` (lines 190-229), with the `data_size` argument
taken as the length of `data`: an odd count returns NULL at lines 197-198,
before any buffer work.  Every even count reaches
`char encoded[total_size]`: the empty input declares a zero-length VLA,
and for a nonempty input the loop deposits `encoded_bytes_written data`
bytes through `strncat` (which never truncates to the destination) into
the `encoded_buf_size data`-byte buffer — `data.length` bytes past its
end (`encode_even_overflow`) — so the C semantics defines no return value
on any even-count path. -/
def requests_url_encode (data : List String) : EncodeOutcome :=
  if data.length % 2 ≠ 0 then EncodeOutcome.null
  else EncodeOutcome.undefinedBehavior

/-- Follows the spec's words (section 4.5), for comparison with the source
function: the result the encoder is intended to return — pairs joined as
`key=value`, successive pairs joined with `&`, the whole plaintext passed
to the external percent-encoding collaborator `escape`; no result on an
odd count. -/
def requests_url_encode_spec (escape : String → String) (data : List String) :
    Option String :=
  if data.length % 2 ≠ 0 then none
  else some (escape (encode_plaintext data))

/-! ## Body accumulation (`resp_callback`, lines 94-114) -/

/-- The body-accumulation fields of `req_t`: `text` is the buffer holding the
assembled response as a C string (`none` models a null pointer, as left by
`text = realloc(text, ...)` after a failed growth), `size` the running byte
count. -/
structure BodyState where
  text : Option (List Nat)
  size : Nat
  deriving Repr, DecidableEq

/-- The body fields after `requests_init` (lines 45-52): `size = 0` and
`text = calloc(1, 1)`, an empty C string. -/
def bodyInit : BodyState :=
  { text := some [], size := 0 }

/-- `resp_callback` (lines 94-114).  `reallocOk` / `strndupOk` are the
allocation oracles for the two allocations in the body.  The code computes
`real_size = size * nmemb`, grows `text` via `realloc` (on failure `text`
becomes NULL and `(size_t)-1`, modelled `none`, is returned), adds
`real_size` to `size`, then appends via
`strndup(content, real_size + 1)` followed by
`strncat(text, responsetext, real_size)`.  Both `strndup` and `strncat`
stop at a zero byte, so the bytes actually appended to the stored C string
are the chunk's bytes before its first zero byte (for a zero-free chunk the
one-past byte read by `strndup` is cut back off by `strncat`'s cap of
`real_size`).  A successful `realloc` on a NULL `text` would yield an
uninitialized buffer (`realloc(NULL, n)` is `malloc`), kept as `none` here:
unusable. -/
def resp_callback (reallocOk strndupOk : Bool) (content : List Nat)
    (sz nmemb : Nat) (st : BodyState) : BodyState × Option Nat :=
  let real_size := sz * nmemb
  if reallocOk = false then
    ({ st with text := none }, none)
  else if strndupOk = false then
    ({ st with size := st.size + real_size }, none)
  else
    ({ text := st.text.map
         (fun t => t ++ (content.take real_size).takeWhile (fun b => ¬ b = 0)),
       size := st.size + real_size }, some real_size)

/-- One delivery to the body callback: `(sz, nmemb, content)` as curl passes
them, with all allocations succeeding. -/
def run_body (ds : List (Nat × Nat × List Nat)) : BodyState :=
  ds.foldl (fun st d => (resp_callback true true d.2.2 d.1 d.2.1 st).1) bodyInit

/-! ## Header collection (`header_callback`, lines 120-139) -/

/-- The response-header fields of `req_t`: `resp_hdrv` is the `char **` array
(`none` a null pointer; an entry `none` a null string, as stored when
`strndup` fails), `resp_hdrc` its element count. -/
structure HdrState where
  resp_hdrv : Option (List (Option (List Nat)))
  resp_hdrc : Nat
  deriving Repr, DecidableEq

/-- The header fields after `requests_init` (lines 49, 60): count 0 and a
valid (empty) allocation. -/
def hdrInit : HdrState :=
  { resp_hdrv := some [], resp_hdrc := 0 }

/-- `header_callback` (lines 120-139).  `line` is the delivered header line
(`real_size = sz * nmemb` bytes, not terminator-bearing) and `ext` the byte
sitting in memory immediately after it, which the code reads: the sentinel
test `strcmp(content, "\r\n") == 0` and the copy
`strndup(content, size * nmemb + 1)` both walk up to a zero byte, one byte
past the delivered line.  A sentinel match returns `real_size` without
storing; otherwise `resp_hdrv` is grown (`realloc` failure nulls it and
returns `(size_t)-1`, modelled `none`), the count incremented, and the
`strndup` result stored — a `strndup` failure stores a null entry and
still returns `real_size` (line 136-138).  As in `resp_callback`, growth
of a null `resp_hdrv` stays `none`. -/
def header_callback (reallocOk strndupOk : Bool) (line : List Nat) (ext : Nat)
    (sz nmemb : Nat) (st : HdrState) : HdrState × Option Nat :=
  let real_size := sz * nmemb
  if (line ++ [ext]).takeWhile (fun b => ¬ b = 0) = [13, 10] then
    (st, some real_size)
  else if reallocOk = false then
    ({ st with resp_hdrv := none }, none)
  else
    let stored : Option (List Nat) :=
      if strndupOk then
        some (((line ++ [ext]).take (real_size + 1)).takeWhile (fun b => ¬ b = 0))
      else none
    ({ resp_hdrv := st.resp_hdrv.map (fun v => v ++ [stored]),
       resp_hdrc := st.resp_hdrc + 1 }, some real_size)

/-- A sequence of header-line deliveries `(line, ext)`, each of `line.length`
bytes (`sz = line.length`, `nmemb = 1`), all allocations succeeding. -/
def run_headers (ds : List (List Nat × Nat)) : HdrState :=
  ds.foldl (fun st d => (header_callback true true d.1 d.2 d.1.length 1 st).1)
    hdrInit

/-- The response-header part of `requests_close` (lines 75-76):
`for (i = 0; i < resp_hdrc; i++) free(resp_hdrv[i]);` then
`free(resp_hdrv)`.  Reading an element of a null array dereferences NULL;
`some ()` means the teardown runs without such a read, `none` that it
crashes. -/
def requests_close_headers (st : HdrState) : Option Unit :=
  match st.resp_hdrv with
  | none => if st.resp_hdrc = 0 then some () else none
  | some v => if st.resp_hdrc ≤ v.length then some () else none

/-! ## Outgoing header list of `requests_pt` (lines 283-308) -/

/-- The `curl_slist` built by `requests_pt`: with no body (`data = none`)
`"Content-Length: 0"` is appended first (line 289); every caller-supplied
custom header is then appended in order. -/
def pt_slist (data : Option String) (custom : Option (List String)) :
    List String :=
  (if data = none then ["Content-Length: 0"] else []) ++
    (match custom with
     | none => []
     | some l => l)

/-- The header list actually installed with `CURLOPT_HTTPHEADER` by
`requests_pt`: set inside the no-body branch when no custom headers are
given (line 291), set after the custom-header loop when custom headers are
given (line 307), and never set when a body is given and no custom headers
are (curl's defaults apply, modelled `none`). -/
def pt_installed (data : Option String) (custom : Option (List String)) :
    Option (List String) :=
  match data, custom with
  | none, none => some (pt_slist data custom)
  | _, some _ => some (pt_slist data custom)
  | some _, none => none

/-! ## Theorems -/

/-- Claim C1: the final accumulated body equals the byte-for-byte
concatenation of all delivered chunks, including chunks with embedded zero
bytes.  The code violates this: `strndup`/`strncat` stop at a zero byte, so
delivering the single 3-byte chunk `0x41 0x00 0x42` (size 3, nmemb 1)
leaves only the byte `0x41` in the stored text while `size` becomes 3 —
not the concatenation `0x41 0x00 0x42`. -/
theorem C1_body_embedded_zero_loses_bytes :
    (run_body [(3, 1, [65, 0, 66])]).text = some [65] ∧
    (run_body [(3, 1, [65, 0, 66])]).size = 3 ∧
    ¬ (some [65] : Option (List Nat)) = some [65, 0, 66] := by
  decide

/-- Claim C2: each stored response-header string is byte-identical to its
source line (exactly `lineLength` bytes).  The code violates this:
`strndup(content, size * nmemb + 1)` copies one byte past the delivered
line, so a one-byte line `0x58` followed in memory by the nonzero byte
`0x59` is stored as the two bytes `0x58 0x59`. -/
theorem C2_header_copies_past_line :
    (run_headers [([88], 89)]).resp_hdrv = some [some [88, 89]] ∧
    (run_headers [([88], 89)]).resp_hdrc = 1 ∧
    ¬ ([88, 89] : List Nat) = [88] := by
  decide

/-- Claim C3, counterexample: the claim quantifies over every integer status
code, but `check_ok` marks a negative code as ok (`-1 >= 400` and
`-1 == 0` are both false), while `0 < -1 < 400` fails. -/
theorem C3_counterexample :
    (check_ok { code := -1, ok := -1 }).ok = 1 ∧
    ¬ ((0 : Int) < -1 ∧ (-1 : Int) < 400) := by
  decide

/-- Claim C3, amended: after `check_ok` the flag is ok iff the status code is
nonzero and below 400; restricted to nonnegative status codes this is
exactly `0 < statusCode < 400` (so 200 is ok and 404, 500, 0 are not). -/
theorem C3_check_ok_amended (r : Verdict) :
    ((check_ok r).ok = 1 ↔ (¬ r.code = 0 ∧ r.code < 400)) ∧
    (0 ≤ r.code → ((check_ok r).ok = 1 ↔ (0 < r.code ∧ r.code < 400))) := by
  unfold check_ok
  split <;> rename_i h <;> simp <;> omega

/-- Witness for the amended C3 theorem at status code 200. -/
theorem C3_check_ok_amended_witness :
    (0 : Int) ≤ 200 ∧ (check_ok { code := 200, ok := -1 }).ok = 1 :=
  ⟨by decide,
   ((C3_check_ok_amended { code := 200, ok := -1 }).2 (by decide)).mpr (by decide)⟩

/-- Claim C4: in every no-body POST/PUT call the installed outgoing header
set contains `"Content-Length: 0"`; with no custom headers it is exactly
that one header; with custom headers the content-length assertion is
installed alongside them. -/
theorem C4_content_length_installed (l : List String) :
    (∀ c : Option (List String),
      "Content-Length: 0" ∈ (pt_installed none c).getD []) ∧
    pt_installed none none = some ["Content-Length: 0"] ∧
    pt_installed none (some l) = some ("Content-Length: 0" :: l) := by
  refine ⟨?_, rfl, rfl⟩
  intro c
  cases c <;> simp [pt_installed, pt_slist]

/-- Claim C5: a non-success transport outcome (`rc ≠ CURLE_OK`) is returned
verbatim by both the GET and the POST/PUT pipeline, with `code` and `ok`
left exactly as they were before the call. -/
theorem C5_transport_failure_short_circuits (rc : Nat) (status : Int)
    (r : Verdict) (h : ¬ rc = 0) :
    requests_get_result rc status r = (rc, r) ∧
    requests_pt_result rc status r = (rc, r) := by
  unfold requests_get_result requests_pt_result
  simp [h]

/-- Witness for C5 at `rc = 7` (a connect failure) with a fresh context. -/
theorem C5_transport_failure_short_circuits_witness :
    ¬ (7 : Nat) = 0 ∧
    requests_get_result 7 200 { code := 0, ok := -1 } =
      (7, { code := 0, ok := -1 }) :=
  ⟨by decide,
   (C5_transport_failure_short_circuits 7 200 { code := 0, ok := -1 }
     (by decide)).1⟩

/-- Length of the tail terms of the assembly loop: each pair past the first
contributes its two strings plus the `&` and `=` separators. -/
lemma encode_rest_length : ∀ l : List String, l.length % 2 = 0 →
    (encode_rest l).length = (l.map String.length).sum + l.length
  | [], _ => by simp [encode_rest]
  | [_], h => by simp at h
  | k :: v :: rest, h => by
    have ih := encode_rest_length rest (by simp [List.length_cons] at h; omega)
    simp [encode_rest, ih, String.length_append,
      show ("&" : String).length = 1 from rfl,
      show ("=" : String).length = 1 from rfl]
    omega

/-- Every nonempty even-count input overflows the VLA `encoded`: the loop
writes exactly `data.length` bytes more than the buffer holds. -/
lemma encode_even_overflow (k v : String) (rest : List String)
    (h : rest.length % 2 = 0) :
    encoded_bytes_written (k :: v :: rest)
      = encoded_buf_size (k :: v :: rest) + (k :: v :: rest).length := by
  simp [encoded_bytes_written, encoded_buf_size, encode_plaintext,
    encode_rest_length rest h, String.length_append,
    show ("=" : String).length = 1 from rfl]
  omega

/-- Claim C6: `encode(["a","1","b","2"], 4)` assembles the plaintext
`"a=1&b=2"` and returns its escaped form — but the code's accumulation
buffer `char encoded[total_size]` holds only the sum of the input lengths
(4 bytes), while the loop writes the plaintext plus terminator (8 bytes):
an out-of-bounds write, so the claimed result is not what the code
guarantees (the even-count path defines no return value). -/
theorem C6_encoder_buffer_overflow :
    encode_plaintext ["a", "1", "b", "2"] = "a=1&b=2" ∧
    requests_url_encode_spec id ["a", "1", "b", "2"] = some "a=1&b=2" ∧
    requests_url_encode ["a", "1", "b", "2"] = EncodeOutcome.undefinedBehavior ∧
    encoded_buf_size ["a", "1", "b", "2"] = 4 ∧
    encoded_bytes_written ["a", "1", "b", "2"] = 8 ∧
    encoded_buf_size ["a", "1", "b", "2"] <
      encoded_bytes_written ["a", "1", "b", "2"] := by
  refine ⟨rfl, rfl, rfl, rfl, rfl, by decide⟩

/-- Claim C7: the encoder returns no result iff the count is odd.  The odd
direction holds — the guard at lines 197-198 returns NULL before any
buffer work, so an odd count never yields a partial or garbage string —
but the even direction fails on the code: at the even input `["a","1"]`
the loop writes the plaintext `"a=1"` plus terminator (4 bytes) into the
2-byte VLA `encoded`, out-of-bounds, so the code guarantees no result
there at all. -/
theorem C7_even_path_has_no_defined_result :
    requests_url_encode ["a", "1", "b"] = EncodeOutcome.null ∧
    (["a", "1", "b"] : List String).length % 2 = 1 ∧
    requests_url_encode ["a", "1"] = EncodeOutcome.undefinedBehavior ∧
    encoded_buf_size ["a", "1"] = 2 ∧
    encoded_bytes_written ["a", "1"] = 4 ∧
    encoded_buf_size ["a", "1"] < encoded_bytes_written ["a", "1"] := by
  refine ⟨rfl, rfl, rfl, rfl, rfl, by decide⟩

/-- On the success path the state-update of `resp_callback` adds
`size * nmemb` to the running count, for any starting state. -/
lemma body_foldl_size (ds : List (Nat × Nat × List Nat)) (st : BodyState) :
    (ds.foldl (fun st d => (resp_callback true true d.2.2 d.1 d.2.1 st).1)
        st).size
      = st.size + (ds.map (fun d => d.1 * d.2.1)).sum := by
  induction ds generalizing st with
  | nil => simp
  | cons d ds ih =>
    simp only [List.foldl_cons, List.map_cons, List.sum_cons, ih]
    simp [resp_callback]
    ring

/-- Claim C8: every successful body-callback invocation adds `size * nmemb`
to `bodyLength`, so after any sequence of deliveries from init the count
is the sum of the per-call byte counts, whatever the chunk contents. -/
theorem C8_size_is_sum_of_chunk_counts (st : BodyState) (content : List Nat)
    (sz nmemb : Nat) (ds : List (Nat × Nat × List Nat)) :
    (resp_callback true true content sz nmemb st).1.size
        = st.size + sz * nmemb ∧
    (run_body ds).size = (ds.map (fun d => d.1 * d.2.1)).sum := by
  constructor
  · simp [resp_callback]
  · simpa [run_body, bodyInit] using body_foldl_size ds bodyInit

/-- Claim C9: after a growth-allocation failure, `close` is still safe.  The
code violates this: `resp_hdrv = realloc(resp_hdrv, ...)` nulls the array
on failure while `resp_hdrc` keeps its old count, so after one stored
header line and a failed growth on the next, `requests_close` reads an
element of a null array. -/
theorem C9_close_crashes_after_header_oom :
    requests_close_headers
        (header_callback true true [65] 0 1 1 hdrInit).1 = some () ∧
    (header_callback false true [66] 0 1 1
        (header_callback true true [65] 0 1 1 hdrInit).1).2 = none ∧
    requests_close_headers
        (header_callback false true [66] 0 1 1
          (header_callback true true [65] 0 1 1 hdrInit).1).1 = none := by
  decide

/-- Claim C10: without an allocation failure, both callbacks return exactly
`size * nmemb`, and the header callback returns that count even for the
blank-line sentinel, which it discards without changing the state. -/
theorem C10_callbacks_return_real_size (rOk sOk : Bool) (content line : List Nat)
    (ext sz nmemb : Nat) (stB : BodyState) (stH : HdrState)
    (hr : rOk = true) (hs : sOk = true) :
    (resp_callback rOk sOk content sz nmemb stB).2 = some (sz * nmemb) ∧
    (header_callback rOk sOk line ext sz nmemb stH).2 = some (sz * nmemb) ∧
    header_callback rOk sOk [13, 10] 0 2 1 stH = (stH, some 2) := by
  subst hr hs
  refine ⟨rfl, ?_, rfl⟩
  unfold header_callback
  split
  · rfl
  · rfl

/-- Witness for C10: a two-byte body chunk is acknowledged with 2. -/
theorem C10_callbacks_return_real_size_witness :
    (resp_callback true true [65, 66] 2 1 bodyInit).2 = some 2 :=
  (C10_callbacks_return_real_size true true [65, 66] [72] 0 2 1 bodyInit
    hdrInit rfl rfl).1

end LibRequests
